import Mathlib

/-!
# TradeLink API — verification of the matching / negotiation subsystem

Shallow embedding of the TypeScript sources of `p2foundation/tradelink-api`:

* `MatchingService.calculateCompatibilityScore`, `parseVolume`,
  `getMatchReasons`, `findMatches` (src/unnamed/part_016);
* `MatchesService.suggestMatches` (src/src/matches/matches.service.ts);
* `NegotiationsService` — `create`, `createOffer`, `respondToOffer`,
  `acceptNegotiation`, `rejectNegotiation`
  (src/src/negotiations/negotiations.service.ts).

JavaScript numbers are modelled by `ℚ`, timestamps by `ℚ` (milliseconds since
the epoch), the database by in-memory lists of rows, and thrown exceptions by
an explicit error type.  Id generation and `new Date()` are passed in as
explicit parameters.
-/

namespace TradeLink

/-! ## JavaScript primitives -/

/-- Truthiness of a JS string: the empty string is falsy. -/
def jsTruthy (s : String) : Bool := !s.isEmpty

/-- Truthiness of a nullable JS string: `null`/`undefined` and `""` are falsy. -/
def jsTruthyOpt : Option String → Bool
  | none => false
  | some s => jsTruthy s

/-- `a || b` for a nullable string `a` and a string `b`. -/
def jsOrOpt (a : Option String) (b : String) : String :=
  match a with
  | none => b
  | some s => if s.isEmpty then b else s

/-- `a || b` for two strings (used for `listing.unit || 'tons'`). -/
def jsOr (a b : String) : String := if a.isEmpty then b else a

/-- `String.prototype.toLowerCase` (ASCII; all data in scope is ASCII),
character by character. -/
def toLower (s : String) : String := ⟨s.toList.map Char.toLower⟩

/-- Does `sub` occur as a contiguous run at some position of `cs`? -/
def listContains (sub : List Char) : List Char → Bool
  | [] => sub.isEmpty
  | c :: cs => sub.isPrefixOf (c :: cs) || listContains sub cs

/-- `s.includes(sub)`: `sub` occurs as a contiguous substring of `s`. -/
def strIncludes (s sub : String) : Bool := listContains sub.toList s.toList

/-- `Math.round`: round half-up towards `+∞`. -/
def jsRound (q : ℚ) : ℤ := ⌊q + 1/2⌋

/-- `Math.round(q * 100) / 100` — two-decimal rounding used on scores. -/
def round2 (q : ℚ) : ℚ := (jsRound (q * 100) : ℚ) / 100

/-! ## `MatchingService.parseVolume`

The TS source matches the regex `/(\d+(?:\.\d+)?)\s*(tons?|kg|tonnes?)/i`
against the free-text volume requirement and, on success, returns
`{ amount: parseFloat(m[1]), unit: m[2].toLowerCase().replace(/s$/, '') }`.

The embedding implements exactly this pattern.  Greedy quantifiers need no
backtracking here: a shorter `\d+` (or fractional `\d+`) leaves a digit as the
next character, and a digit can start neither `(?:\.\d+)?` nor `\s*`-then-unit;
the unit alternatives start with a non-whitespace letter, so maximal munch for
`\s*` is also exact.  The alternation `tons?|kg|tonnes?` is tried left to
right; since `ton` is a prefix of `tonne`, the `tonnes?` branch can never win
(kept for fidelity).
-/

/-- The regex class `\s` restricted to ASCII whitespace. -/
def isWs (c : Char) : Bool :=
  c = ' ' || c = '\t' || c = '\n' || c = '\r' || c.toNat = 11 || c.toNat = 12

/-- Numeric value of a digit run (the integer part read by `parseFloat`). -/
def digitsVal (ds : List Char) : ℕ :=
  ds.foldl (fun n c => 10 * n + (c.toNat - ('0').toNat)) 0

/-- Case-insensitively strip the literal `pat` (given lowercase) from the
front of `cs`, returning the rest on success. -/
def ciPrefix : List Char → List Char → Option (List Char)
  | [], cs => some cs
  | _ :: _, [] => none
  | p :: ps, c :: cs => if c.toLower = p then ciPrefix ps cs else none

/-- Match the group `(tons?|kg|tonnes?)` (case-insensitive) at the front of
`cs`; returns the matched text lowercased (group 2 is lowercased by the
caller anyway). -/
def matchUnit (cs : List Char) : Option String :=
  match ciPrefix ['t', 'o', 'n'] cs with
  | some rest =>
    -- `tons?` with greedy `s?`
    match rest with
    | c :: _ => if c.toLower = 's' then some "tons" else some "ton"
    | [] => some "ton"
  | none =>
    match ciPrefix ['k', 'g'] cs with
    | some _ => some "kg"
    | none =>
      -- `tonnes?` — dead branch: anything starting `ton` matched above
      match ciPrefix ['t', 'o', 'n', 'n', 'e'] cs with
      | some rest =>
        match rest with
        | c :: _ => if c.toLower = 's' then some "tonnes" else some "tonne"
        | [] => some "tonne"
      | none => none

/-- `unit.replace(/s$/, '')` on an already-lowercased unit: drop the final
character when it is `'s'`. -/
def stripTrailingS (s : String) : String :=
  match s.toList.getLast? with
  | some 's' => ⟨s.toList.dropLast⟩
  | _ => s

/-- Attempt to match `(\d+(?:\.\d+)?)\s*(tons?|kg|tonnes?)` anchored at the
front of `cs`, returning `parseFloat` of group 1 and the normalised unit. -/
def matchNumUnitAt (cs : List Char) : Option (ℚ × String) :=
  let ds := cs.takeWhile Char.isDigit
  if ds.isEmpty then none
  else
    let rest0 := cs.dropWhile Char.isDigit
    let (val, rest1) : ℚ × List Char :=
      match rest0 with
      | '.' :: cs2 =>
        let fs := cs2.takeWhile Char.isDigit
        if fs.isEmpty then
          ((digitsVal ds : ℚ), rest0)           -- `(?:\.\d+)?` matches empty
        else
          ((digitsVal ds : ℚ) + (digitsVal fs : ℚ) / (10 : ℚ) ^ fs.length,
            cs2.dropWhile Char.isDigit)
      | _ => ((digitsVal ds : ℚ), rest0)
    match matchUnit (rest1.dropWhile isWs) with
    | some u => some (val, stripTrailingS u)
    | none => none

/-- Leftmost-match scan of the regex over the whole string. -/
def parseVolumeAux : List Char → Option (ℚ × String)
  | [] => none
  | c :: cs =>
    match matchNumUnitAt (c :: cs) with
    | some r => some r
    | none => parseVolumeAux cs

/-- `MatchingService.parseVolume` (src/unnamed/part_016, lines 852–861). -/
def parseVolume (volumeString : String) : Option (ℚ × String) :=
  parseVolumeAux volumeString.toList

/-! ## Data model (rows as produced by the Prisma queries in scope) -/

/-- The slice of `User` the matching code reads (`listing.farmer.user`). -/
structure UserRec where
  verified : Bool
  deriving Repr, DecidableEq

/-- The slice of `Farmer` joined onto a listing. -/
structure FarmerRec where
  user : Option UserRec
  deriving Repr, DecidableEq

/-- The slice of `Buyer` the matching code reads.  `country` is
`TEXT NOT NULL`; `volumeRequired` is nullable. -/
structure Buyer where
  country : String
  seekingCrops : List String
  qualityStandards : List String
  volumeRequired : Option String
  deriving Repr, DecidableEq

/-- The slice of `Listing` (with its joined farmer) the matching code reads.
`unit` is `TEXT NOT NULL DEFAULT 'tons'`; the code still guards it with
`listing.unit || 'tons'`. -/
structure Listing where
  id : String
  farmerId : String
  cropType : String
  qualityGrade : String
  quantity : ℚ
  unit : String
  pricePerUnit : ℚ
  availableFrom : ℚ
  certifications : List String
  status : String
  farmer : Option FarmerRec
  deriving Repr, DecidableEq

/-- `listing.farmer?.user?.verified` under JS optional chaining
(`undefined` is falsy). -/
def isVerified (l : Listing) : Bool :=
  match l.farmer with
  | some f =>
    match f.user with
    | some u => u.verified
    | none => false
  | none => false

/-! ## `MatchingService.calculateCompatibilityScore`
(src/unnamed/part_016, lines 707–808).

The TS body is a straight-line sequence of `score += …` updates followed by
`Math.min(score, 100)`, with one early `return 0`.  Each block is embedded as
a named component; the main function is their sum, mirroring the control
flow exactly. -/

/-- Block 0, hard-exclusion case: `!listing.farmer?.user?.verified &&
buyer.country && buyer.country !== 'GH'` — the early `return 0`. -/
def intlExclusion (b : Buyer) (l : Listing) : Bool :=
  !isVerified l && jsTruthy b.country && b.country != "GH"

/-- Block 0, fall-through case: `-20` penalty for unverified, `+5` bonus for
verified. -/
def verificationAdj (l : Listing) : ℚ :=
  if isVerified l then 5 else -20

/-- `buyer.seekingCrops.some(crop => crop.toLowerCase() ===
listing.cropType.toLowerCase())`. -/
def cropExact (b : Buyer) (l : Listing) : Bool :=
  b.seekingCrops.any fun crop => toLower crop == toLower l.cropType

/-- `buyer.seekingCrops.some(crop =>
listing.cropType.toLowerCase().includes(crop.toLowerCase()))` — note the
direction: the listing crop contains the buyer's token. -/
def cropPartial (b : Buyer) (l : Listing) : Bool :=
  b.seekingCrops.any fun crop => strIncludes (toLower l.cropType) (toLower crop)

/-- Block 1: crop type compatibility (30 exact, else 15 partial). -/
def cropScore (b : Buyer) (l : Listing) : ℚ :=
  if cropExact b l then 30
  else if cropPartial b l then 15
  else 0

/-- `buyer.qualityStandards.some(std => std.toLowerCase().includes(grade) ||
grade.includes(std.toLowerCase()))`. -/
def qualityOverlap (b : Buyer) (l : Listing) : Bool :=
  b.qualityStandards.any fun standard =>
    strIncludes (toLower standard) (toLower l.qualityGrade) ||
      strIncludes (toLower l.qualityGrade) (toLower standard)

/-- Block 2: quality grade match (25 overlap, else 20 for premium-seeking
buyers on a `PREMIUM` listing). -/
def qualityScore (b : Buyer) (l : Listing) : ℚ :=
  if qualityOverlap b l then 25
  else if (b.qualityStandards.any fun s => strIncludes (toLower s) "premium")
      && l.qualityGrade == "PREMIUM" then 20
  else 0

/-- Band scoring of `ratio = listingQuantity / amount`.  (With a zero
`amount`, JS produces `±Infinity`/`NaN` and every band test fails, i.e. 0
points; `ℚ` division by zero yields `0`, and every band likewise rejects `0`
since `0 < 0.3`, so the embedding agrees.) -/
def volumeBand (ratio : ℚ) : ℚ :=
  if 0.8 ≤ ratio ∧ ratio ≤ 1.2 then 20
  else if 0.5 ≤ ratio ∧ ratio ≤ 2 then 15
  else if 0.3 ≤ ratio ∧ ratio ≤ 3 then 10
  else 0

/-- Block 3: quantity requirements (src lines 762–784).  If the nullable
`buyer.volumeRequired` is truthy it is parsed; points are added only when the
parse succeeds and the units align.  A falsy field gives the flat default 10. -/
def volumeScore (b : Buyer) (l : Listing) : ℚ :=
  if jsTruthyOpt b.volumeRequired then
    match parseVolume (b.volumeRequired.getD "") with
    | some (amount, unit) =>
      if unit == jsOr l.unit "tons"
          || (unit == "ton" && jsOr l.unit "tons" == "tons") then
        volumeBand (l.quantity / amount)
      else 0
    | none => 0
  else 10

/-- Block 4: price compatibility — 10 points for the mere presence of a
positive price. -/
def priceScore (l : Listing) : ℚ :=
  if l.pricePerUnit > 0 then 10 else 0

/-- Block 5: availability timeline, relative to `new Date()` (passed in as
`now`, milliseconds). -/
def availabilityScore (now : ℚ) (l : Listing) : ℚ :=
  if l.availableFrom ≤ now then 10
  else if (l.availableFrom - now) / (1000 * 60 * 60 * 24) ≤ 30 then 7
  else if (l.availableFrom - now) / (1000 * 60 * 60 * 24) ≤ 90 then 4
  else 0

/-- `MatchingService.calculateCompatibilityScore`, transcribed block by
block.  The TS body initialises `score = 0` and mutates it through six
blocks (early-returning 0 for excluded international pairs), ending with
`Math.min(score, 100)`; the mutation sequence is rendered as a chain of
shadowed `let score := …` bindings. -/
def calculateCompatibilityScore (now : ℚ) (b : Buyer) (l : Listing) : ℚ :=
  -- 0. International compliance check — early `return 0`, else ±adjustment
  if !isVerified l && jsTruthy b.country && b.country != "GH" then 0
  else
  let score : ℚ := if isVerified l then 0 + 5 else 0 - 20
  -- 1. Crop type compatibility (30 points)
  let score :=
    if b.seekingCrops.any fun crop => toLower crop == toLower l.cropType then
      score + 30
    else if b.seekingCrops.any fun crop =>
        strIncludes (toLower l.cropType) (toLower crop) then
      score + 15
    else score
  -- 2. Quality grade match (25 points)
  let score :=
    if b.qualityStandards.any fun standard =>
        strIncludes (toLower standard) (toLower l.qualityGrade) ||
          strIncludes (toLower l.qualityGrade) (toLower standard) then
      score + 25
    else if (b.qualityStandards.any fun s => strIncludes (toLower s) "premium")
        && l.qualityGrade == "PREMIUM" then
      score + 20
    else score
  -- 3. Quantity requirements (20 points)
  let score :=
    if jsTruthyOpt b.volumeRequired then
      match parseVolume (b.volumeRequired.getD "") with
      | some (amount, unit) =>
        if unit == jsOr l.unit "tons"
            || (unit == "ton" && jsOr l.unit "tons" == "tons") then
          if 0.8 ≤ l.quantity / amount ∧ l.quantity / amount ≤ 1.2 then
            score + 20
          else if 0.5 ≤ l.quantity / amount ∧ l.quantity / amount ≤ 2 then
            score + 15
          else if 0.3 ≤ l.quantity / amount ∧ l.quantity / amount ≤ 3 then
            score + 10
          else score
        else score
      | none => score
    else score + 10
  -- 4. Price compatibility (10 points for a positive price)
  let score := if l.pricePerUnit > 0 then score + 10 else score
  -- 5. Availability timeline (10 points)
  let score :=
    if l.availableFrom ≤ now then score + 10
    else if (l.availableFrom - now) / (1000 * 60 * 60 * 24) ≤ 30 then score + 7
    else if (l.availableFrom - now) / (1000 * 60 * 60 * 24) ≤ 90 then score + 4
    else score
  min score 100

/-! ## `MatchingService.getMatchReasons` / `findMatches`
(src/unnamed/part_016, lines 671–705 and 810–850).

`findMatches` first tries `aiClient.generateMatchRecommendation` for the
reasons and falls back to `getMatchReasons` when that external call fails;
the external text generator is modelled by its deterministic fallback. -/

/-- Rule-based reason strings (`getMatchReasons`). -/
def getMatchReasons (b : Buyer) (l : Listing) (score : ℚ) : List String :=
  (if cropExact b l then
      ["Crop type matches buyer requirements: " ++ l.cropType] else [])
  ++ (if qualityOverlap b l then
      ["Quality grade (" ++ l.qualityGrade ++ ") meets buyer standards"] else [])
  ++ (if l.quantity ≥ 10 then
      ["Large quantity available: " ++ toString l.quantity ++ " " ++ l.unit]
    else [])
  ++ (if !l.certifications.isEmpty then
      ["Certifications: " ++ String.intercalate ", " l.certifications] else [])
  ++ (if score ≥ 70 then ["High compatibility score - excellent match"]
    else if score ≥ 50 then ["Good compatibility score - strong match"]
    else [])

/-- The `MatchResult` record built per retained listing. -/
structure MatchResult where
  listingId : String
  farmerId : String
  score : ℚ
  estimatedValue : ℚ
  reasons : List String
  deriving Repr, DecidableEq

/-- `MatchingService.findMatches`: score every candidate, keep scores `> 30`,
sort descending by (rounded) score, truncate to `limit`. -/
def findMatches (now : ℚ) (b : Buyer) (listings : List Listing) (limit : ℕ) :
    List MatchResult :=
  let results := listings.filterMap fun l =>
    let score := calculateCompatibilityScore now b l
    if score > 30 then
      some { listingId := l.id, farmerId := l.farmerId, score := round2 score,
             estimatedValue := l.quantity * l.pricePerUnit,
             reasons := getMatchReasons b l score }
    else none
  (results.mergeSort fun a b => b.score ≤ a.score).take limit

/-! ## `MatchesService.suggestMatches`
(src/src/matches/matches.service.ts, lines 133–212).

The buyer row has already been looked up (absence raises `NotFoundException`
before any of the logic modelled here).  The Prisma query
`listing.findMany({ where })` over the listing table is modelled as a filter
over the full table: `status: 'ACTIVE'` always, plus
`farmer: { user: { verified: true } }` when the buyer is international. -/

/-- The candidate listings returned by the pre-filtering database query. -/
def suggestCandidates (b : Buyer) (table : List Listing) : List Listing :=
  table.filter fun l =>
    l.status == "ACTIVE"
      && (if jsTruthy b.country && b.country != "GH" then isVerified l else true)

/-- A persisted `Match` row as created by `suggestMatches`. -/
structure SuggestedMatch where
  listingId : String
  farmerId : String
  buyerId : String
  compatibilityScore : ℚ
  estimatedValue : ℚ
  status : String
  deriving Repr, DecidableEq

/-- `MatchesService.suggestMatches` (post buyer lookup): pre-filter the
listing table, run the matching service, persist one `SUGGESTED` row per
result. -/
def suggestMatches (now : ℚ) (b : Buyer) (buyerId : String)
    (table : List Listing) (limit : ℕ) : List SuggestedMatch :=
  (findMatches now b (suggestCandidates b table) limit).map fun m =>
    { listingId := m.listingId, farmerId := m.farmerId, buyerId := buyerId,
      compatibilityScore := m.score, estimatedValue := m.estimatedValue,
      status := "SUGGESTED" }

/-! ## Negotiations data model
(`src/src/negotiations/negotiations.service.ts`; row shapes from the Prisma
schema in src/unnamed/part_000). -/

inductive NegotiationStatus
  | ACTIVE | ACCEPTED | REJECTED | EXPIRED | CANCELLED
  deriving Repr, DecidableEq

inductive OfferStatus
  | PENDING | ACCEPTED | REJECTED | COUNTERED | EXPIRED
  deriving Repr, DecidableEq

inductive MatchStatus
  | SUGGESTED | CONTACTED | NEGOTIATING | CONTRACT_SIGNED | COMPLETED
  | CANCELLED
  deriving Repr, DecidableEq

/-- The slice of a `Match` row the negotiation operations touch. -/
structure MatchRow where
  id : String
  buyerId : String
  status : MatchStatus
  negotiationStartedAt : Option ℚ
  contractSignedAt : Option ℚ
  deriving Repr, DecidableEq

structure Negotiation where
  id : String
  matchId : String
  initialPrice : ℚ
  currentPrice : ℚ
  quantity : ℚ
  currency : String
  terms : Option String
  deliveryTerms : Option String
  paymentTerms : Option String
  initiatedBy : String
  lastUpdatedBy : String
  status : NegotiationStatus
  acceptedAt : Option ℚ
  rejectedAt : Option ℚ
  expiresAt : Option ℚ
  deriving Repr, DecidableEq

structure Offer where
  id : String
  negotiationId : String
  offeredBy : String
  price : ℚ
  quantity : ℚ
  message : Option String
  terms : Option String
  status : OfferStatus
  responseMessage : Option String
  respondedAt : Option ℚ
  deriving Repr, DecidableEq

structure Transaction where
  id : String
  matchId : String
  negotiationId : String
  buyerId : String
  quantity : ℚ
  agreedPrice : ℚ
  totalValue : ℚ
  currency : String
  paymentStatus : String
  shipmentStatus : String
  deriving Repr, DecidableEq

/-- The relational state the negotiation operations read and write.
(`matchRows` is the `Match` table; `matches` is a reserved word in Lean.) -/
structure Db where
  matchRows : List MatchRow
  negotiations : List Negotiation
  offers : List Offer
  transactions : List Transaction
  deriving Repr, DecidableEq

/-- `NotFoundException` / `BadRequestException`; `internal` stands for a
runtime crash (JS `TypeError` / Prisma `P2025`) on a foreign-key-violating
state, which the database constraints make unreachable. -/
inductive ServiceError
  | notFound (msg : String)
  | badRequest (msg : String)
  | internal (msg : String)
  deriving Repr, DecidableEq

/-! ### Prisma query primitives (`findUnique` / `findFirst` / `update`) -/

def findMatchRow (db : Db) (id : String) : Option MatchRow :=
  db.matchRows.find? fun m => m.id == id

def findNegotiation (db : Db) (id : String) : Option Negotiation :=
  db.negotiations.find? fun n => n.id == id

/-- `negotiation.findFirst({ where: { matchId, status: ACTIVE } })`. -/
def findActiveNegotiation (db : Db) (matchId : String) : Option Negotiation :=
  db.negotiations.find? fun n => n.matchId == matchId && n.status == .ACTIVE

def findOffer (db : Db) (id : String) : Option Offer :=
  db.offers.find? fun o => o.id == id

/-- `transaction.findUnique({ where: { negotiationId } })` (unique index). -/
def findTransaction (db : Db) (negotiationId : String) : Option Transaction :=
  db.transactions.find? fun t => t.negotiationId == negotiationId

def updateMatchRow (db : Db) (id : String) (f : MatchRow → MatchRow) : Db :=
  { db with
    matchRows := db.matchRows.map fun m => if m.id == id then f m else m }

def updateNegotiation (db : Db) (id : String) (f : Negotiation → Negotiation) :
    Db :=
  { db with
    negotiations := db.negotiations.map fun n => if n.id == id then f n else n }

def updateOffer (db : Db) (id : String) (f : Offer → Offer) : Db :=
  { db with offers := db.offers.map fun o => if o.id == id then f o else o }

/-! ### Operations of `NegotiationsService`

Each operation returns the result (or thrown error) together with the final
database state.  `now` models `new Date()`, `newId` the id Prisma generates
for a created row. -/

/-! Row literals: each is the `data` object of one Prisma `update`/`create`
call in negotiations.service.ts, named so that theorems can refer to it. -/

/-- `create`: `{ status: 'NEGOTIATING', negotiationStartedAt: new Date() }`. -/
def negotiatingStamp (now : ℚ) (mr : MatchRow) : MatchRow :=
  { mr with status := .NEGOTIATING, negotiationStartedAt := some now }

/-- `acceptNegotiation`/`respondToOffer`:
`{ status: ACCEPTED, acceptedAt: new Date(), lastUpdatedBy: userId }`. -/
def acceptedStamp (now : ℚ) (userId : String) (n : Negotiation) :
    Negotiation :=
  { n with status := .ACCEPTED, acceptedAt := some now,
           lastUpdatedBy := userId }

/-- `rejectNegotiation`:
`{ status: REJECTED, rejectedAt: new Date(), lastUpdatedBy: userId }`. -/
def rejectedStamp (now : ℚ) (userId : String) (n : Negotiation) :
    Negotiation :=
  { n with status := .REJECTED, rejectedAt := some now,
           lastUpdatedBy := userId }

/-- `acceptNegotiation`:
`{ status: 'CONTRACT_SIGNED', contractSignedAt: new Date() }`. -/
def contractStamp (now : ℚ) (mr : MatchRow) : MatchRow :=
  { mr with status := .CONTRACT_SIGNED, contractSignedAt := some now }

/-- `CreateNegotiationDto` (src/src/negotiations/dto/create-negotiation.dto.ts). -/
structure CreateNegotiationDto where
  matchId : String
  initialPrice : ℚ
  currentPrice : ℚ
  quantity : ℚ
  currency : Option String
  terms : Option String
  deliveryTerms : Option String
  paymentTerms : Option String
  initiatedBy : Option String
  expiresAt : Option ℚ
  deriving Repr, DecidableEq

/-- `create`: the `data` object of `prisma.negotiation.create` (with the
resolved `initiatedBy`; the row's status defaults to ACTIVE). -/
def newNegotiationRow (dto : CreateNegotiationDto) (userId newId : String) :
    Negotiation :=
  { id := newId, matchId := dto.matchId, initialPrice := dto.initialPrice,
    currentPrice := dto.currentPrice, quantity := dto.quantity,
    currency := jsOrOpt dto.currency "USD", terms := dto.terms,
    deliveryTerms := dto.deliveryTerms, paymentTerms := dto.paymentTerms,
    initiatedBy := jsOrOpt dto.initiatedBy userId,
    lastUpdatedBy := jsOr userId (jsOrOpt dto.initiatedBy userId),
    status := .ACTIVE, acceptedAt := none, rejectedAt := none,
    expiresAt := dto.expiresAt }

/-- `NegotiationsService.create` (negotiations.service.ts, lines 12–82).
Note the order of effects: the parent match is flipped to `NEGOTIATING`
*before* the `initiatedBy` validation. -/
def create (dto : CreateNegotiationDto) (userId : String) (now : ℚ)
    (newId : String) (db : Db) : Except ServiceError Negotiation × Db :=
  match findMatchRow db dto.matchId with
  | none => (.error (.notFound "Match not found"), db)
  | some _ =>
    match findActiveNegotiation db dto.matchId with
    | some _ =>
      (.error (.badRequest "Active negotiation already exists for this match"),
        db)
    | none =>
      let db1 := updateMatchRow db dto.matchId (negotiatingStamp now)
      let initiatedBy := jsOrOpt dto.initiatedBy userId
      if initiatedBy.isEmpty then
        (.error (.badRequest "initiatedBy is required"), db1)
      else
        let n := newNegotiationRow dto userId newId
        (.ok n, { db1 with negotiations := db1.negotiations ++ [n] })

/-- `CreateOfferDto` (src/unnamed/part_010). -/
structure CreateOfferDto where
  negotiationId : String
  offeredBy : String
  offeredByRole : String
  price : ℚ
  quantity : ℚ
  currency : Option String
  message : Option String
  terms : Option String
  deriving Repr, DecidableEq

/-- `createOffer`: the negotiation update `{ currentPrice: price, quantity,
lastUpdatedBy: offeredBy }`. -/
def offerTermsStamp (dto : CreateOfferDto) (n : Negotiation) : Negotiation :=
  { n with currentPrice := dto.price, quantity := dto.quantity,
           lastUpdatedBy := dto.offeredBy }

/-- `NegotiationsService.createOffer` (lines 173–202): requires an ACTIVE
negotiation, overwrites its current terms with the new ask, then inserts a
`PENDING` offer row. -/
def createOffer (dto : CreateOfferDto) (newId : String) (db : Db) :
    Except ServiceError Offer × Db :=
  match findNegotiation db dto.negotiationId with
  | none => (.error (.notFound "Negotiation not found"), db)
  | some n =>
    if n.status ≠ .ACTIVE then
      (.error (.badRequest "Negotiation is not active"), db)
    else
      let db1 := updateNegotiation db dto.negotiationId (offerTermsStamp dto)
      let o : Offer :=
        { id := newId, negotiationId := dto.negotiationId,
          offeredBy := dto.offeredBy, price := dto.price,
          quantity := dto.quantity, message := dto.message,
          terms := dto.terms, status := .PENDING, responseMessage := none,
          respondedAt := none }
      (.ok o, { db1 with offers := db1.offers ++ [o] })

/-- `RespondOfferDto` (src/src/negotiations/dto/respond-offer.dto.ts). -/
structure RespondOfferDto where
  status : OfferStatus
  responseMessage : Option String
  deriving Repr, DecidableEq

/-- `respondToOffer`: the offer update `{ status, responseMessage,
respondedAt: new Date() }`. -/
def respondedStamp (dto : RespondOfferDto) (now : ℚ) (o : Offer) : Offer :=
  { o with status := dto.status, responseMessage := dto.responseMessage,
           respondedAt := some now }

/-- `NegotiationsService.respondToOffer` (lines 204–241): requires a PENDING
offer; records the response on the offer; when the response is `ACCEPTED`,
the parent negotiation is set to `ACCEPTED` (whatever its prior status). -/
def respondToOffer (offerId : String) (dto : RespondOfferDto)
    (userId : String) (now : ℚ) (db : Db) : Except ServiceError Offer × Db :=
  match findOffer db offerId with
  | none => (.error (.notFound "Offer not found"), db)
  | some o =>
    if o.status ≠ .PENDING then
      (.error (.badRequest "Offer has already been responded to"), db)
    else
      let db1 := updateOffer db offerId (respondedStamp dto now)
      let db2 :=
        if dto.status = .ACCEPTED then
          updateNegotiation db1 o.negotiationId (acceptedStamp now userId)
        else db1
      (.ok (respondedStamp dto now o), db2)

/-- `acceptNegotiation`: the `data` object of `prisma.transaction.create` —
in particular `totalValue = currentPrice * quantity`. -/
def newTransactionRow (id txid : String) (n : Negotiation) (m : MatchRow) :
    Transaction :=
  { id := txid, matchId := n.matchId, negotiationId := id,
    buyerId := m.buyerId, quantity := n.quantity,
    agreedPrice := n.currentPrice,
    totalValue := n.currentPrice * n.quantity, currency := n.currency,
    paymentStatus := "pending", shipmentStatus := "pending" }

/-- Return value of `acceptNegotiation`: the updated negotiation spread
together with `transactionId`. -/
structure AcceptResult where
  negotiation : Negotiation
  transactionId : String
  deriving Repr, DecidableEq

/-- `NegotiationsService.acceptNegotiation` (lines 243–313): requires an
ACTIVE negotiation; reuses the transaction already recorded for this
`negotiationId` if any, otherwise creates one with
`totalValue = currentPrice * quantity`; then marks the negotiation
`ACCEPTED` and the parent match `CONTRACT_SIGNED`.  (If the parent match row
were absent, the JS would crash reading `negotiation.match.buyerId`; the
foreign key makes that state unreachable and it is modelled as `internal`.) -/
def acceptNegotiation (id userId : String) (now : ℚ) (newTxId : String)
    (db : Db) : Except ServiceError AcceptResult × Db :=
  match findNegotiation db id with
  | none => (.error (.notFound "Negotiation not found"), db)
  | some n =>
    if n.status ≠ .ACTIVE then
      (.error (.badRequest "Negotiation is not active"), db)
    else
      let finish : Transaction → Db → Except ServiceError AcceptResult × Db :=
        fun t db2 =>
          let db3 := updateNegotiation db2 id (acceptedStamp now userId)
          let db4 := updateMatchRow db3 n.matchId (contractStamp now)
          (.ok { negotiation := acceptedStamp now userId n,
                 transactionId := t.id }, db4)
      match findTransaction db id with
      | some t => finish t db
      | none =>
        match findMatchRow db n.matchId with
        | none => (.error (.internal "negotiation.match is null"), db)
        | some m =>
          let t := newTransactionRow id newTxId n m
          finish t { db with transactions := db.transactions ++ [t] }

/-- `NegotiationsService.rejectNegotiation` (lines 315–332): only checks
existence — the status is overwritten with `REJECTED` whatever it was, and
the parent match is untouched. -/
def rejectNegotiation (id userId : String) (now : ℚ) (db : Db) :
    Except ServiceError Negotiation × Db :=
  match findNegotiation db id with
  | none => (.error (.notFound "Negotiation not found"), db)
  | some n =>
    (.ok (rejectedStamp now userId n),
      updateNegotiation db id (rejectedStamp now userId))

/-! ### State observers (used to phrase the theorems) -/

/-- The status of the negotiation with the given id, if present. -/
def negotiationStatus (db : Db) (id : String) : Option NegotiationStatus :=
  (findNegotiation db id).map fun n => n.status

/-- The status of the match row with the given id, if present. -/
def matchStatus (db : Db) (id : String) : Option MatchStatus :=
  (findMatchRow db id).map fun m => m.status

/-! ## Concrete fixtures used by witnesses and counterexamples -/

/-- A verified-user farmer join. -/
def fxVerified : FarmerRec := ⟨some ⟨true⟩⟩

/-- An unverified-user farmer join. -/
def fxUnverified : FarmerRec := ⟨some ⟨false⟩⟩

/-- The spec's end-to-end listing: Cocoa, PREMIUM, 12 tons, priced,
available now, verified farmer. -/
def fxCocoa : Listing :=
  { id := "l1", farmerId := "f1", cropType := "Cocoa",
    qualityGrade := "PREMIUM", quantity := 12, unit := "tons",
    pricePerUnit := 2, availableFrom := 0, certifications := [],
    status := "ACTIVE", farmer := some fxVerified }

/-- The spec's end-to-end buyer: seeks Cocoa, PREMIUM, "10 tons/month",
domestic. -/
def fxBuyer : Buyer :=
  { country := "GH", seekingCrops := ["Cocoa"],
    qualityStandards := ["PREMIUM"], volumeRequired := some "10 tons/month" }

/-- An unattractive listing: unverified farmer, unmatched crop and grade, no
price, availability beyond 90 days. -/
def fxBadListing : Listing :=
  { id := "l2", farmerId := "f2", cropType := "Maize",
    qualityGrade := "GRADE_B", quantity := 1, unit := "tons",
    pricePerUnit := 0, availableFrom := 10000000000000, certifications := [],
    status := "ACTIVE", farmer := some fxUnverified }

/-- A domestic buyer with nothing matching and an unparseable volume text. -/
def fxBadBuyer : Buyer :=
  { country := "GH", seekingCrops := [], qualityStandards := [],
    volumeRequired := some "as much as possible" }

/-- A buyer row whose `country` column holds the empty string. -/
def fxNoCountryBuyer : Buyer :=
  { country := "", seekingCrops := ["maize"], qualityStandards := [],
    volumeRequired := some "plenty" }

/-- International (non-`GH`) variant of the end-to-end buyer. -/
def fxIntlBuyer : Buyer := { fxBuyer with country := "US" }

/-- Unverified-farmer variant of the end-to-end listing. -/
def fxUnvCocoa : Listing := { fxCocoa with farmer := some fxUnverified }

/-- Buyer requiring exactly "10 tons". -/
def fxVolBuyer : Buyer :=
  { country := "GH", seekingCrops := [], qualityStandards := [],
    volumeRequired := some "10 tons" }

/-- Listing with 8 tons: ratio 0.8 against "10 tons". -/
def fxVol8 : Listing := { fxCocoa with quantity := 8 }

/-- Buyer requiring "100000 tons". -/
def fxVolBuyer2 : Buyer := { fxVolBuyer with volumeRequired := some "100000 tons" }

/-- Listing with 79999 tons: ratio 0.79999 against "100000 tons". -/
def fxVol79999 : Listing := { fxCocoa with quantity := 79999 }

/-- Listing whose crop string extends the buyer's token. -/
def fxCocoaBeans : Listing := { fxCocoa with cropType := "Cocoa Beans" }

/-- A fresh match row. -/
def fxMatch : MatchRow :=
  { id := "m1", buyerId := "b1", status := .SUGGESTED,
    negotiationStartedAt := none, contractSignedAt := none }

/-- A negotiation on `fxMatch` in a given status. -/
def fxNeg (st : NegotiationStatus) : Negotiation :=
  { id := "n1", matchId := "m1", initialPrice := 100, currentPrice := 90,
    quantity := 5, currency := "USD", terms := none, deliveryTerms := none,
    paymentTerms := none, initiatedBy := "u1", lastUpdatedBy := "u1",
    status := st, acceptedAt := none, rejectedAt := none, expiresAt := none }

/-- An offer on `fxNeg` in a given status. -/
def fxOffer (st : OfferStatus) (oid : String) : Offer :=
  { id := oid, negotiationId := "n1", offeredBy := "u1", price := 80,
    quantity := 5, message := none, terms := none, status := st,
    responseMessage := none, respondedAt := none }

/-- One match and one negotiation in the given status. -/
def fxDb (st : NegotiationStatus) : Db :=
  { matchRows := [fxMatch], negotiations := [fxNeg st], offers := [],
    transactions := [] }

/-- `fxDb .ACTIVE` with two PENDING offers on the negotiation. -/
def fxDbOffers : Db :=
  { fxDb .ACTIVE with
    offers := [fxOffer .PENDING "o1", fxOffer .PENDING "o2"] }

/-- A create-negotiation request against `fxMatch` with no explicit
`initiatedBy`. -/
def fxCreateDto : CreateNegotiationDto :=
  { matchId := "m1", initialPrice := 100, currentPrice := 100, quantity := 5,
    currency := none, terms := none, deliveryTerms := none,
    paymentTerms := none, initiatedBy := none, expiresAt := none }

/-- A create-offer request against `fxNeg`. -/
def fxOfferDto : CreateOfferDto :=
  { negotiationId := "n1", offeredBy := "u2", offeredByRole := "BUYER",
    price := 85, quantity := 5, currency := none, message := none,
    terms := none }

/-- An ACCEPTED response to an offer. -/
def fxRespondDto : RespondOfferDto :=
  { status := .ACCEPTED, responseMessage := none }

end TradeLink

/-! # Theorems -/

namespace TradeLink

/-! ## Component bounds -/

theorem verificationAdj_bounds (l : Listing) :
    -20 ≤ verificationAdj l ∧ verificationAdj l ≤ 5 := by
  unfold verificationAdj; split_ifs <;> norm_num

theorem cropScore_bounds (b : Buyer) (l : Listing) :
    0 ≤ cropScore b l ∧ cropScore b l ≤ 30 := by
  unfold cropScore; split_ifs <;> norm_num

theorem qualityScore_bounds (b : Buyer) (l : Listing) :
    0 ≤ qualityScore b l ∧ qualityScore b l ≤ 25 := by
  unfold qualityScore; split_ifs <;> norm_num

theorem volumeBand_bounds (r : ℚ) : 0 ≤ volumeBand r ∧ volumeBand r ≤ 20 := by
  unfold volumeBand; split_ifs <;> norm_num

theorem volumeScore_bounds (b : Buyer) (l : Listing) :
    0 ≤ volumeScore b l ∧ volumeScore b l ≤ 20 := by
  unfold volumeScore
  split
  · split
    · split_ifs <;> first | exact volumeBand_bounds _ | norm_num
    · norm_num
  · norm_num

theorem priceScore_bounds (l : Listing) :
    0 ≤ priceScore l ∧ priceScore l ≤ 10 := by
  unfold priceScore; split_ifs <;> norm_num

theorem availabilityScore_bounds (now : ℚ) (l : Listing) :
    0 ≤ availabilityScore now l ∧ availabilityScore now l ≤ 10 := by
  unfold availabilityScore; split_ifs <;> norm_num

end TradeLink

/-! # Theorems -/

namespace TradeLink

/-! ## Scoring decomposition: the mutation chain equals the component sum -/

theorem accum_if₁ (c : Prop) [Decidable c] (s a : ℚ) :
    (if c then s + a else s) = s + (if c then a else 0) := by
  split_ifs <;> ring

theorem accum_if₂ (c₁ c₂ : Prop) [Decidable c₁] [Decidable c₂] (s a₁ a₂ : ℚ) :
    (if c₁ then s + a₁ else if c₂ then s + a₂ else s)
      = s + (if c₁ then a₁ else if c₂ then a₂ else 0) := by
  split_ifs <;> ring

theorem accum_if₃ (c₁ c₂ c₃ : Prop) [Decidable c₁] [Decidable c₂]
    [Decidable c₃] (s a₁ a₂ a₃ : ℚ) :
    (if c₁ then s + a₁ else if c₂ then s + a₂ else if c₃ then s + a₃ else s)
      = s + (if c₁ then a₁ else if c₂ then a₂ else if c₃ then a₃ else 0) := by
  split_ifs <;> ring

/-- The volume block of the mutation chain adds exactly `volumeScore`. -/
theorem accum_volume (b : Buyer) (l : Listing) (s : ℚ) :
    (if jsTruthyOpt b.volumeRequired then
      match parseVolume (b.volumeRequired.getD "") with
      | some (amount, unit) =>
        if unit == jsOr l.unit "tons"
            || (unit == "ton" && jsOr l.unit "tons" == "tons") then
          if 0.8 ≤ l.quantity / amount ∧ l.quantity / amount ≤ 1.2 then
            s + 20
          else if 0.5 ≤ l.quantity / amount ∧ l.quantity / amount ≤ 2 then
            s + 15
          else if 0.3 ≤ l.quantity / amount ∧ l.quantity / amount ≤ 3 then
            s + 10
          else s
        else s
      | none => s
    else s + 10) = s + volumeScore b l := by
  unfold volumeScore volumeBand
  cases h : jsTruthyOpt b.volumeRequired with
  | false => simp [h]
  | true =>
    simp only [h, if_true]
    cases hp : parseVolume (b.volumeRequired.getD "") with
    | none => dsimp only; ring
    | some r =>
      obtain ⟨amount, unit⟩ := r
      dsimp only
      split_ifs <;> ring

set_option maxHeartbeats 2000000 in
/-- `calculateCompatibilityScore` is the capped sum of its six components,
gated by the international hard exclusion. -/
theorem score_decomposition (now : ℚ) (b : Buyer) (l : Listing) :
    calculateCompatibilityScore now b l =
      if intlExclusion b l then 0
      else
        min (verificationAdj l + cropScore b l + qualityScore b l
              + volumeScore b l + priceScore l + availabilityScore now l)
          100 := by
  unfold calculateCompatibilityScore intlExclusion
  split
  · rfl
  · dsimp only
    rw [accum_if₃, accum_if₁, accum_volume, accum_if₂, accum_if₂]
    unfold verificationAdj cropScore cropExact cropPartial qualityScore
      qualityOverlap priceScore availabilityScore
    congr 1
    split_ifs <;> ring

/-! ## C1 — score range -/

/-- C1 (amended): the compatibility score always lies in `[-20, 100]`, and
in `[0, 100]` whenever the listing's farmer is verified; the claimed lower
bound `0` fails only for unverified farmers, where the `-20` penalty is not
clamped. -/
theorem score_range (now : ℚ) (b : Buyer) (l : Listing) :
    -20 ≤ calculateCompatibilityScore now b l ∧
      calculateCompatibilityScore now b l ≤ 100 ∧
      (isVerified l = true → 0 ≤ calculateCompatibilityScore now b l) := by
  have h1 := verificationAdj_bounds l
  have h2 := cropScore_bounds b l
  have h3 := qualityScore_bounds b l
  have h4 := volumeScore_bounds b l
  have h5 := priceScore_bounds l
  have h6 := availabilityScore_bounds now l
  rw [score_decomposition]
  by_cases h : intlExclusion b l = true
  · simp [h]
  · simp only [Bool.not_eq_true] at h
    simp only [h, Bool.false_eq_true, if_false]
    refine ⟨?_, min_le_right _ _, ?_⟩
    · rw [le_min_iff]; constructor <;> linarith
    · intro hv
      have hadj : verificationAdj l = 5 := by simp [verificationAdj, hv]
      rw [le_min_iff]; constructor <;> linarith

/-- C1 witness: on the spec's end-to-end pair (verified farmer) the score is
nonnegative, by `score_range` applied at a concrete input. -/
theorem score_range_witness :
    0 ≤ calculateCompatibilityScore 5 fxBuyer fxCocoa :=
  (score_range 5 fxBuyer fxCocoa).2.2 (by decide)

/-- C1 counterexample: for a domestic buyer with nothing matching and an
unverified farmer the function returns `-20`, outside the claimed `[0,100]`. -/
theorem score_below_zero_cex :
    calculateCompatibilityScore 0 fxBadBuyer fxBadListing = -20 ∧
      ¬(0 ≤ calculateCompatibilityScore 0 fxBadBuyer fxBadListing ∧
          calculateCompatibilityScore 0 fxBadBuyer fxBadListing ≤ 100) := by
  have h : calculateCompatibilityScore 0 fxBadBuyer fxBadListing = -20 := by
    with_unfolding_all rfl
  refine ⟨h, ?_⟩
  rw [h]
  intro hc
  exact absurd hc.1 (by norm_num)

/-! ## C3 — international hard exclusion -/

/-- C3 (amended): for every buyer whose country is non-empty and differs
from `"GH"`, an unverified-farmer listing scores exactly 0.  (The code
guards with JS truthiness, so the empty-string country escapes the
exclusion.) -/
theorem intl_unverified_zero (now : ℚ) (b : Buyer) (l : Listing)
    (hc : b.country ≠ "") (hgh : b.country ≠ "GH")
    (hv : isVerified l = false) :
    calculateCompatibilityScore now b l = 0 := by
  have hex : intlExclusion b l = true := by
    have : b.country.isEmpty = false := by
      rcases h : b.country.isEmpty with _ | _
      · rfl
      · exact absurd ((String.isEmpty_iff b.country).mp h) hc
    simp [intlExclusion, hv, jsTruthy, this, bne_iff_ne, hgh]
  rw [score_decomposition, hex]
  rfl

/-- C3 witness: a US buyer against an unverified Cocoa farmer scores 0, by
`intl_unverified_zero` at a concrete input. -/
theorem intl_unverified_zero_witness :
    calculateCompatibilityScore 0 fxIntlBuyer fxUnvCocoa = 0 :=
  intl_unverified_zero 0 fxIntlBuyer fxUnvCocoa (by decide) (by decide)
    (by decide)

/-- C3 counterexample: a buyer whose `country` column is the empty string
differs from `"GH"`, yet an unverified-farmer listing scores 10, not 0 —
the truthiness guard `buyer.country && …` skips the hard exclusion. -/
theorem intl_unverified_cex :
    fxNoCountryBuyer.country ≠ "GH" ∧
      isVerified fxBadListing = false ∧
      calculateCompatibilityScore 0 fxNoCountryBuyer fxBadListing = 10 := by
  refine ⟨by decide, by decide, by with_unfolding_all rfl⟩

/-! ## C6 — volume bands -/

/-- C6 (amended): when the buyer's volume requirement is present and parses
to an aligned unit, the volume component follows the exact banded
thresholds on `ratio = quantity / amount` (`[0.8,1.2] → 20`, then
`[0.5,2] → 15`, then `[0.3,3] → 10`, else 0, boundaries included); the
default of 10 applies only when no requirement is provided (null or empty
field) — a provided requirement that fails to parse contributes 0, not 10. -/
theorem volume_component_spec (b : Buyer) (l : Listing) (s : String)
    (amount : ℚ) (unit : String)
    (hreq : b.volumeRequired = some s) (hne : s ≠ "")
    (hp : parseVolume s = some (amount, unit))
    (halign : (unit == jsOr l.unit "tons"
        || (unit == "ton" && jsOr l.unit "tons" == "tons")) = true) :
    (0.8 ≤ l.quantity / amount → l.quantity / amount ≤ 1.2 →
        volumeScore b l = 20)
  ∧ (0.5 ≤ l.quantity / amount → l.quantity / amount ≤ 2 →
      ¬(0.8 ≤ l.quantity / amount ∧ l.quantity / amount ≤ 1.2) →
        volumeScore b l = 15)
  ∧ (0.3 ≤ l.quantity / amount → l.quantity / amount ≤ 3 →
      ¬(0.5 ≤ l.quantity / amount ∧ l.quantity / amount ≤ 2) →
        volumeScore b l = 10)
  ∧ (¬(0.3 ≤ l.quantity / amount ∧ l.quantity / amount ≤ 3) →
        volumeScore b l = 0)
  ∧ (∀ b' : Buyer, jsTruthyOpt b'.volumeRequired = false →
        volumeScore b' l = 10) := by
  have htr : jsTruthyOpt b.volumeRequired = true := by
    rw [hreq]
    show (!s.isEmpty) = true
    rcases h : s.isEmpty with _ | _
    · rfl
    · exact absurd ((String.isEmpty_iff s).mp h) hne
  have hbase : volumeScore b l = volumeBand (l.quantity / amount) := by
    unfold volumeScore
    rw [htr, if_pos rfl, hreq]
    dsimp only [Option.getD]
    rw [hp]
    dsimp only
    rw [if_pos halign]
  refine ⟨?_, ?_, ?_, ?_, ?_⟩
  · intro h1 h2
    rw [hbase]; unfold volumeBand; rw [if_pos ⟨h1, h2⟩]
  · intro h1 h2 hnot
    rw [hbase]; unfold volumeBand; rw [if_neg hnot, if_pos ⟨h1, h2⟩]
  · intro h1 h2 hnot
    rw [hbase]; unfold volumeBand
    have hnot' : ¬(0.8 ≤ l.quantity / amount ∧ l.quantity / amount ≤ 1.2) := by
      rintro ⟨ha, hb⟩
      exact hnot ⟨by linarith, by linarith⟩
    rw [if_neg hnot', if_neg hnot, if_pos ⟨h1, h2⟩]
  · intro hnot
    rw [hbase]; unfold volumeBand
    have h1 : ¬(0.8 ≤ l.quantity / amount ∧ l.quantity / amount ≤ 1.2) := by
      rintro ⟨ha, hb⟩
      exact hnot ⟨by linarith, by linarith⟩
    have h2 : ¬(0.5 ≤ l.quantity / amount ∧ l.quantity / amount ≤ 2) := by
      rintro ⟨ha, hb⟩
      exact hnot ⟨by linarith, by linarith⟩
    rw [if_neg h1, if_neg h2, if_neg hnot]
  · intro b' hfalsy
    unfold volumeScore
    rw [hfalsy]
    rfl

/-- C6 witness: at the exact boundary, "10 tons" against 8 tons (ratio 0.8)
scores 20, while "100000 tons" against 79999 tons (ratio 0.79999) scores
15, and an absent requirement defaults to 10 — by `volume_component_spec`
at concrete inputs. -/
theorem volume_component_spec_witness :
    volumeScore fxVolBuyer fxVol8 = 20 ∧
      volumeScore fxVolBuyer2 fxVol79999 = 15 ∧
      volumeScore { fxVolBuyer with volumeRequired := none } fxCocoa = 10 :=
  ⟨(volume_component_spec fxVolBuyer fxVol8 "10 tons" 10 "ton"
      (by decide) (by decide) (by decide) (by decide)).1
      (by norm_num [fxVol8, fxCocoa]) (by norm_num [fxVol8, fxCocoa]),
    (volume_component_spec fxVolBuyer2 fxVol79999 "100000 tons" 100000 "ton"
      (by decide) (by decide) (by decide) (by decide)).2.1
      (by norm_num [fxVol79999, fxCocoa]) (by norm_num [fxVol79999, fxCocoa])
      (by norm_num [fxVol79999, fxCocoa]),
    (volume_component_spec fxVolBuyer fxVol8 "10 tons" 10 "ton"
      (by decide) (by decide) (by decide) (by decide)).2.2.2.2
      { fxVolBuyer with volumeRequired := none } (by decide)⟩

/-- C6 counterexample: a volume requirement that is present but fails to
parse ("as much as possible") contributes 0 points, not the claimed default
of 10. -/
theorem volume_unparsed_cex :
    fxBadBuyer.volumeRequired = some "as much as possible" ∧
      parseVolume "as much as possible" = none ∧
      volumeScore fxBadBuyer fxBadListing = 0 ∧ (0 : ℚ) ≠ 10 := by
  refine ⟨rfl, by decide, by with_unfolding_all rfl, by norm_num⟩

/-! ## C7 — crop component, additivity and cap -/

/-- C7: an exact case-insensitive membership of the listing crop in
`buyer.seekingCrops` contributes exactly 30 points; otherwise a partial
match — the listing crop string containing some seeking-crop token, and not
vice versa — contributes exactly 15; components add up and the total is
capped at 100.  The last three conjuncts exhibit the asymmetry of the
partial check on concrete strings. -/
theorem crop_component_spec (now : ℚ) (b : Buyer) (l : Listing) :
    (cropExact b l = true → cropScore b l = 30)
  ∧ (cropExact b l = false → cropPartial b l = true → cropScore b l = 15)
  ∧ (cropExact b l = false → cropPartial b l = false → cropScore b l = 0)
  ∧ calculateCompatibilityScore now b l =
      (if intlExclusion b l then 0
        else
          min (verificationAdj l + cropScore b l + qualityScore b l
                + volumeScore b l + priceScore l + availabilityScore now l)
            100)
  ∧ calculateCompatibilityScore now b l ≤ 100
  ∧ cropPartial ⟨"GH", ["cocoa"], [], none⟩ fxCocoaBeans = true
  ∧ cropExact ⟨"GH", ["cocoa"], [], none⟩ fxCocoaBeans = false
  ∧ cropPartial ⟨"GH", ["cocoa beans"], [], none⟩ fxCocoa = false := by
  refine ⟨?_, ?_, ?_, score_decomposition now b l, ?_, by decide, by decide,
    by decide⟩
  · intro h; unfold cropScore; rw [h]; rfl
  · intro h1 h2; unfold cropScore; rw [h1, h2]; rfl
  · intro h1 h2; unfold cropScore; rw [h1, h2]; rfl
  · rw [score_decomposition]
    by_cases h : intlExclusion b l = true
    · simp [h]
    · simp only [Bool.not_eq_true] at h
      simp only [h, Bool.false_eq_true, if_false]
      exact min_le_right _ _

/-! ## C10 — international pre-filtering in suggestMatches -/

/-- C10: for a suggest-matches request by a buyer whose country is set and
differs from `"GH"`, every candidate returned by the pre-filtering query has
a verified farmer and falls outside the scoring function's hard-exclusion
branch (`intlExclusion` is false on it), and every persisted `Match` row
references a verified listing of the table. -/
theorem suggest_matches_verified (now : ℚ) (b : Buyer) (buyerId : String)
    (table : List Listing) (limit : ℕ)
    (hc : b.country ≠ "") (hgh : b.country ≠ "GH") :
    (∀ l ∈ suggestCandidates b table,
        isVerified l = true ∧ intlExclusion b l = false)
  ∧ (∀ row ∈ suggestMatches now b buyerId table limit,
      ∃ l ∈ table, l.id = row.listingId ∧ l.farmerId = row.farmerId ∧
        isVerified l = true) := by
  have hintl : (jsTruthy b.country && b.country != "GH") = true := by
    have h1 : b.country.isEmpty = false := by
      rcases h : b.country.isEmpty with _ | _
      · rfl
      · exact absurd ((String.isEmpty_iff b.country).mp h) hc
    simp [jsTruthy, h1, bne_iff_ne, hgh]
  have hcand : ∀ l ∈ suggestCandidates b table, isVerified l = true := by
    intro l hl
    have := (List.mem_filter.mp hl).2
    rw [hintl] at this
    simp only [if_true, Bool.and_eq_true] at this
    exact this.2
  constructor
  · intro l hl
    refine ⟨hcand l hl, ?_⟩
    unfold intlExclusion
    rw [hcand l hl]
    rfl
  · intro row hrow
    unfold suggestMatches at hrow
    obtain ⟨m, hm, hrowm⟩ := List.mem_map.mp hrow
    unfold findMatches at hm
    have hm2 := List.mem_mergeSort.mp (List.take_subset _ _ hm)
    obtain ⟨l, hl, hml⟩ := List.mem_filterMap.mp hm2
    have hlt : l ∈ table := (List.mem_filter.mp hl).1
    refine ⟨l, hlt, ?_, ?_, hcand l hl⟩
    · by_cases hsc : calculateCompatibilityScore now b l > 30
      · rw [if_pos hsc] at hml
        cases hml
        rw [← hrowm]
      · rw [if_neg hsc] at hml
        cases hml
    · by_cases hsc : calculateCompatibilityScore now b l > 30
      · rw [if_pos hsc] at hml
        cases hml
        rw [← hrowm]
      · rw [if_neg hsc] at hml
        cases hml

/-- C10 witness: `suggest_matches_verified` applied to the US buyer and a
two-listing table (one verified, one not), instantiated at the verified
listing, which is a candidate. -/
theorem suggest_matches_verified_witness :
    isVerified fxCocoa = true ∧ intlExclusion fxIntlBuyer fxCocoa = false :=
  (suggest_matches_verified 0 fxIntlBuyer "b1" [fxCocoa, fxUnvCocoa] 10
    (by decide) (by decide)).1 fxCocoa (by decide)

/-- C7 witness: the end-to-end pair has an exact crop match worth 30 and a
total score of exactly 100 (capped), by `crop_component_spec` at a concrete
input. -/
theorem crop_component_spec_witness :
    cropScore fxBuyer fxCocoa = 30 ∧
      calculateCompatibilityScore 5 fxBuyer fxCocoa ≤ 100 :=
  ⟨(crop_component_spec 5 fxBuyer fxCocoa).1 (by decide),
    (crop_component_spec 5 fxBuyer fxCocoa).2.2.2.2.1⟩

/-! ## Negotiation state machine: find/update plumbing -/

/-- Updating exactly the rows selected by `p` (with a `p`-preserving `f`)
commutes with `find? p`. -/
theorem find?_map_update {α : Type} (l : List α) (p : α → Bool) (f : α → α)
    (hp : ∀ a, p (f a) = p a) :
    (l.map fun a => if p a then f a else a).find? p = (l.find? p).map f := by
  induction l with
  | nil => rfl
  | cons a l ih =>
    by_cases h : p a = true
    · rw [List.map_cons, if_pos h, List.find?_cons_of_pos _ ((hp a).trans h),
        List.find?_cons_of_pos _ h]
      rfl
    · rw [List.map_cons, if_neg h, List.find?_cons_of_neg _ h,
        List.find?_cons_of_neg _ h, ih]

/-- `findNegotiation` after `updateNegotiation` on the same id. -/
theorem findNegotiation_update (db : Db) (id : String)
    (f : Negotiation → Negotiation) (hf : ∀ n, (f n).id = n.id) :
    findNegotiation (updateNegotiation db id f) id
      = (findNegotiation db id).map f := by
  unfold findNegotiation updateNegotiation
  exact find?_map_update _ _ _ fun n => by rw [hf]

/-- `findMatchRow` after `updateMatchRow` on the same id. -/
theorem findMatchRow_update (db : Db) (id : String)
    (f : MatchRow → MatchRow) (hf : ∀ m, (f m).id = m.id) :
    findMatchRow (updateMatchRow db id f) id
      = (findMatchRow db id).map f := by
  unfold findMatchRow updateMatchRow
  exact find?_map_update _ _ _ fun m => by rw [hf]

/-- Negotiation lookups ignore the match, offer and transaction tables. -/
theorem findNegotiation_updateMatchRow (db : Db) (mid : String)
    (g : MatchRow → MatchRow) (id : String) :
    findNegotiation (updateMatchRow db mid g) id = findNegotiation db id :=
  rfl

/-- Match lookups ignore the negotiation, offer and transaction tables. -/
theorem findMatchRow_updateNegotiation (db : Db) (nid : String)
    (f : Negotiation → Negotiation) (id : String) :
    findMatchRow (updateNegotiation db nid f) id = findMatchRow db id :=
  rfl

/-! ## C5 — create negotiation -/

/-- C5 (amended): create fails with not-found if the match is absent and
with an invalid-state error if an ACTIVE negotiation exists for the match;
when every prior negotiation of the match is non-ACTIVE *and the resolved
`initiatedBy` (DTO field or authenticated `userId`) is non-empty*, creation
succeeds (an ACTIVE negotiation is appended and returned) and the match is
set to NEGOTIATING with `negotiationStartedAt` stamped.  (Without the
proviso the call fails validation, see the counterexample.) -/
theorem create_negotiation_spec (db : Db) (dto : CreateNegotiationDto)
    (userId : String) (now : ℚ) (newId : String) :
    (findMatchRow db dto.matchId = none →
        create dto userId now newId db
          = (.error (.notFound "Match not found"), db))
  ∧ (∀ m a, findMatchRow db dto.matchId = some m →
        findActiveNegotiation db dto.matchId = some a →
        create dto userId now newId db
          = (.error (.badRequest
              "Active negotiation already exists for this match"), db))
  ∧ (∀ m, findMatchRow db dto.matchId = some m →
      (∀ n ∈ db.negotiations, n.matchId = dto.matchId →
          n.status ≠ .ACTIVE) →
      jsOrOpt dto.initiatedBy userId ≠ "" →
        (create dto userId now newId db).1
            = .ok (newNegotiationRow dto userId newId)
        ∧ (newNegotiationRow dto userId newId).status = .ACTIVE
        ∧ matchStatus (create dto userId now newId db).2 dto.matchId
            = some .NEGOTIATING
        ∧ ((findMatchRow (create dto userId now newId db).2 dto.matchId).map
              fun mr => mr.negotiationStartedAt) = some (some now)
        ∧ (create dto userId now newId db).2.negotiations
            = db.negotiations ++ [newNegotiationRow dto userId newId]) := by
  refine ⟨?_, ?_, ?_⟩
  · intro hnone
    unfold create
    rw [hnone]
  · intro m a hm ha
    unfold create
    rw [hm, ha]
  · intro m hm hall hne
    have hact : findActiveNegotiation db dto.matchId = none := by
      unfold findActiveNegotiation
      rw [List.find?_eq_none]
      intro n hn hcontra
      rw [Bool.and_eq_true] at hcontra
      exact hall n hn (by simpa using hcontra.1) (by simpa using hcontra.2)
    have hie : ¬((jsOrOpt dto.initiatedBy userId).isEmpty = true) :=
      fun hcontra => hne ((String.isEmpty_iff _).mp hcontra)
    have hstep : create dto userId now newId db
        = (.ok (newNegotiationRow dto userId newId),
            let db1 := updateMatchRow db dto.matchId (negotiatingStamp now)
            { db1 with negotiations :=
                db1.negotiations ++ [newNegotiationRow dto userId newId] }) := by
      unfold create
      rw [hm, hact]
      dsimp only
      rw [if_neg hie]
    have hfm : findMatchRow (create dto userId now newId db).2 dto.matchId
        = some (negotiatingStamp now m) := by
      rw [hstep]
      show findMatchRow (updateMatchRow db dto.matchId (negotiatingStamp now))
          dto.matchId = _
      rw [findMatchRow_update db dto.matchId (negotiatingStamp now)
        (fun mr => rfl), hm]
      rfl
    refine ⟨by rw [hstep], rfl, ?_, ?_,
      by rw [hstep]; try rfl⟩
    · unfold matchStatus
      rw [hfm]
      rfl
    · rw [hfm]
      rfl

/-- C5 witness: on a match whose only negotiation is REJECTED and an
authenticated user, creation succeeds with an ACTIVE negotiation and the
match moves to NEGOTIATING — by `create_negotiation_spec` at concrete
inputs. -/
theorem create_negotiation_spec_witness :
    (create fxCreateDto "u2" 3 "n2" (fxDb .REJECTED)).1
        = .ok (newNegotiationRow fxCreateDto "u2" "n2")
      ∧ (newNegotiationRow fxCreateDto "u2" "n2").status = .ACTIVE
      ∧ matchStatus (create fxCreateDto "u2" 3 "n2" (fxDb .REJECTED)).2 "m1"
          = some .NEGOTIATING
      ∧ ((findMatchRow (create fxCreateDto "u2" 3 "n2" (fxDb .REJECTED)).2
            "m1").map fun mr => mr.negotiationStartedAt) = some (some 3) :=
  let h := (create_negotiation_spec (fxDb .REJECTED) fxCreateDto "u2" 3
    "n2").2.2 fxMatch (by decide) (by decide) (by decide)
  ⟨h.1, h.2.1, h.2.2.1, h.2.2.2.1⟩

/-- C5 counterexample: same REJECTED-prior situation, but the DTO carries no
`initiatedBy` and the authenticated userId is empty — creation does *not*
succeed: it raises the `initiatedBy` validation error. -/
theorem create_negotiation_cex :
    (∀ n ∈ (fxDb .REJECTED).negotiations, n.status ≠ NegotiationStatus.ACTIVE)
      ∧ (create fxCreateDto "" 0 "n2" (fxDb .REJECTED)).1
          = .error (.badRequest "initiatedBy is required") := by
  refine ⟨by decide, by with_unfolding_all rfl⟩

/-! ## C9 — non-atomic create error path -/

/-- C9: when the match exists and has no ACTIVE negotiation but the resolved
`initiatedBy` is empty, create raises the validation error *after* flipping
the match to NEGOTIATING and stamping `negotiationStartedAt`, and creates no
negotiation — the failing call leaves the match modified. -/
theorem create_nonatomic_spec (db : Db) (dto : CreateNegotiationDto)
    (userId : String) (now : ℚ) (newId : String) (m : MatchRow)
    (hm : findMatchRow db dto.matchId = some m)
    (hact : findActiveNegotiation db dto.matchId = none)
    (hempty : jsOrOpt dto.initiatedBy userId = "") :
    (create dto userId now newId db).1
        = .error (.badRequest "initiatedBy is required")
  ∧ (create dto userId now newId db).2
      = updateMatchRow db dto.matchId (negotiatingStamp now)
  ∧ matchStatus (create dto userId now newId db).2 dto.matchId
      = some .NEGOTIATING
  ∧ ((findMatchRow (create dto userId now newId db).2 dto.matchId).map
        fun mr => mr.negotiationStartedAt) = some (some now)
  ∧ (create dto userId now newId db).2.negotiations = db.negotiations := by
  have hie : (jsOrOpt dto.initiatedBy userId).isEmpty = true := by
    rw [hempty]
    rfl
  have hstep : create dto userId now newId db
      = (.error (.badRequest "initiatedBy is required"),
          updateMatchRow db dto.matchId (negotiatingStamp now)) := by
    unfold create
    rw [hm, hact]
    dsimp only
    rw [if_pos hie]
  have hfm : findMatchRow (create dto userId now newId db).2 dto.matchId
      = some (negotiatingStamp now m) := by
    rw [hstep]
    show findMatchRow (updateMatchRow db dto.matchId (negotiatingStamp now))
        dto.matchId = _
    rw [findMatchRow_update db dto.matchId (negotiatingStamp now)
      (fun mr => rfl), hm]
    rfl
  refine ⟨by rw [hstep], by rw [hstep]; try rfl, ?_, ?_,
    by rw [hstep]; try rfl⟩
  · unfold matchStatus
    rw [hfm]
    rfl
  · rw [hfm]
    rfl

/-- C9 witness: `create_nonatomic_spec` at concrete inputs — empty userId,
no DTO `initiatedBy`, a match with a REJECTED prior negotiation. -/
theorem create_nonatomic_spec_witness :
    (create fxCreateDto "" 0 "n2" (fxDb .REJECTED)).1
        = .error (.badRequest "initiatedBy is required")
      ∧ matchStatus (create fxCreateDto "" 0 "n2" (fxDb .REJECTED)).2 "m1"
          = some .NEGOTIATING
      ∧ (create fxCreateDto "" 0 "n2" (fxDb .REJECTED)).2.negotiations
          = (fxDb .REJECTED).negotiations :=
  let h := create_nonatomic_spec (fxDb .REJECTED) fxCreateDto "" 0 "n2"
    fxMatch (by decide) (by decide) (by decide)
  ⟨h.1, h.2.2.1, h.2.2.2.2⟩

/-! ## Shared facts about `acceptNegotiation` -/

/-- Happy path with an existing transaction: the transaction table is left
alone and the existing transaction's id is returned. -/
theorem accept_ok_tx_some (db : Db) (id userId : String) (now : ℚ)
    (txid : String) (n : Negotiation) (t : Transaction)
    (hn : findNegotiation db id = some n) (ha : n.status = .ACTIVE)
    (hft : findTransaction db id = some t) :
    acceptNegotiation id userId now txid db
      = (.ok { negotiation := acceptedStamp now userId n,
               transactionId := t.id },
          updateMatchRow (updateNegotiation db id (acceptedStamp now userId))
            n.matchId (contractStamp now)) := by
  unfold acceptNegotiation
  rw [hn]
  dsimp only
  rw [if_neg (not_not_intro ha), hft]

/-- Happy path without an existing transaction: a fresh transaction row is
appended. -/
theorem accept_ok_tx_none (db : Db) (id userId : String) (now : ℚ)
    (txid : String) (n : Negotiation) (m : MatchRow)
    (hn : findNegotiation db id = some n) (ha : n.status = .ACTIVE)
    (hft : findTransaction db id = none)
    (hm : findMatchRow db n.matchId = some m) :
    acceptNegotiation id userId now txid db
      = (.ok { negotiation := acceptedStamp now userId n,
               transactionId := txid },
          updateMatchRow
            (updateNegotiation
              { db with transactions :=
                  db.transactions ++ [newTransactionRow id txid n m] }
              id (acceptedStamp now userId))
            n.matchId (contractStamp now)) := by
  unfold acceptNegotiation
  rw [hn]
  dsimp only
  rw [if_neg (not_not_intro ha), hft, hm]
  rfl

/-- After either happy path, looking the negotiation up again yields it with
the ACCEPTED stamp. -/
theorem find_after_accept (dbx db : Db) (id userId : String) (now : ℚ)
    (n : Negotiation) (heq : dbx.negotiations = db.negotiations)
    (hn : findNegotiation db id = some n) (mid : String) :
    findNegotiation
        (updateMatchRow (updateNegotiation dbx id (acceptedStamp now userId))
          mid (contractStamp now)) id
      = some (acceptedStamp now userId n) := by
  show findNegotiation (updateNegotiation dbx id (acceptedStamp now userId))
      id = _
  rw [findNegotiation_update dbx id (acceptedStamp now userId)
    (fun nn => rfl)]
  unfold findNegotiation at hn ⊢
  rw [heq, hn]
  rfl

/-- Shared fact about `respondToOffer`: an ACCEPTED response to a PENDING
offer stamps the parent negotiation ACCEPTED, whatever its prior status. -/
theorem respond_accept_post (db : Db) (oid : String) (dto : RespondOfferDto)
    (userId : String) (now : ℚ) (o : Offer) (p : Negotiation)
    (ho : findOffer db oid = some o) (hp : o.status = .PENDING)
    (hacc : dto.status = .ACCEPTED)
    (hfneg : findNegotiation db o.negotiationId = some p) :
    respondToOffer oid dto userId now db
        = (.ok (respondedStamp dto now o),
            updateNegotiation (updateOffer db oid (respondedStamp dto now))
              o.negotiationId (acceptedStamp now userId))
      ∧ findNegotiation (respondToOffer oid dto userId now db).2
          o.negotiationId = some (acceptedStamp now userId p) := by
  have hstep : respondToOffer oid dto userId now db
      = (.ok (respondedStamp dto now o),
          updateNegotiation (updateOffer db oid (respondedStamp dto now))
            o.negotiationId (acceptedStamp now userId)) := by
    unfold respondToOffer
    rw [ho]
    dsimp only
    rw [if_neg (not_not_intro hp), if_pos hacc]
  refine ⟨hstep, ?_⟩
  rw [hstep]
  show findNegotiation
      (updateNegotiation (updateOffer db oid (respondedStamp dto now))
        o.negotiationId (acceptedStamp now userId)) o.negotiationId = _
  rw [findNegotiation_update _ o.negotiationId (acceptedStamp now userId)
    (fun nn => rfl)]
  show (findNegotiation db o.negotiationId).map _ = _
  rw [hfneg]
  rfl

/-! ## C4 — accept negotiation -/

/-- C4: accept on an existing ACTIVE negotiation reuses the transaction
already recorded for that `negotiationId` if one exists (returning its id,
leaving the table unchanged) and otherwise creates exactly one with
`totalValue = currentPrice * quantity`; it sets the negotiation to ACCEPTED
and the parent match to CONTRACT_SIGNED; it fails not-found when the
negotiation is absent and invalid-state when it is not ACTIVE. -/
theorem accept_negotiation_spec (db : Db) (id userId : String) (now : ℚ)
    (txid : String) :
    (findNegotiation db id = none →
        acceptNegotiation id userId now txid db
          = (.error (.notFound "Negotiation not found"), db))
  ∧ (∀ n, findNegotiation db id = some n → n.status ≠ .ACTIVE →
        acceptNegotiation id userId now txid db
          = (.error (.badRequest "Negotiation is not active"), db))
  ∧ (∀ n t, findNegotiation db id = some n → n.status = .ACTIVE →
      findTransaction db id = some t →
        (acceptNegotiation id userId now txid db).1
            = .ok { negotiation := acceptedStamp now userId n,
                    transactionId := t.id }
        ∧ (acceptNegotiation id userId now txid db).2.transactions
            = db.transactions
        ∧ negotiationStatus (acceptNegotiation id userId now txid db).2 id
            = some .ACCEPTED
        ∧ (∀ m, findMatchRow db n.matchId = some m →
            matchStatus (acceptNegotiation id userId now txid db).2 n.matchId
              = some .CONTRACT_SIGNED))
  ∧ (∀ n m, findNegotiation db id = some n → n.status = .ACTIVE →
      findTransaction db id = none → findMatchRow db n.matchId = some m →
        (acceptNegotiation id userId now txid db).1
            = .ok { negotiation := acceptedStamp now userId n,
                    transactionId := txid }
        ∧ (acceptNegotiation id userId now txid db).2.transactions
            = db.transactions ++ [newTransactionRow id txid n m]
        ∧ (newTransactionRow id txid n m).totalValue
            = n.currentPrice * n.quantity
        ∧ (newTransactionRow id txid n m).negotiationId = id
        ∧ negotiationStatus (acceptNegotiation id userId now txid db).2 id
            = some .ACCEPTED
        ∧ matchStatus (acceptNegotiation id userId now txid db).2 n.matchId
            = some .CONTRACT_SIGNED) := by
  refine ⟨?_, ?_, ?_, ?_⟩
  · intro hnone
    unfold acceptNegotiation
    rw [hnone]
  · intro n hn hna
    unfold acceptNegotiation
    rw [hn]
    dsimp only
    rw [if_pos hna]
  · intro n t hn ha hft
    have hstep := accept_ok_tx_some db id userId now txid n t hn ha hft
    have hfneg : findNegotiation (acceptNegotiation id userId now txid db).2
        id = some (acceptedStamp now userId n) := by
      rw [hstep]
      exact find_after_accept db db id userId now n rfl hn n.matchId
    refine ⟨by rw [hstep], by rw [hstep]; rfl, ?_, ?_⟩
    · unfold negotiationStatus
      rw [hfneg]
      rfl
    · intro m hm
      have hfmr : findMatchRow (acceptNegotiation id userId now txid db).2
          n.matchId = some (contractStamp now m) := by
        rw [hstep]
        rw [findMatchRow_update _ n.matchId (contractStamp now)
          (fun mr => rfl)]
        show (findMatchRow db n.matchId).map _ = _
        rw [hm]
        rfl
      unfold matchStatus
      rw [hfmr]
      rfl
  · intro n m hn ha hft hm
    have hstep := accept_ok_tx_none db id userId now txid n m hn ha hft hm
    have hfneg : findNegotiation (acceptNegotiation id userId now txid db).2
        id = some (acceptedStamp now userId n) := by
      rw [hstep]
      exact find_after_accept _ db id userId now n rfl hn n.matchId
    refine ⟨by rw [hstep], by rw [hstep]; rfl, rfl, rfl, ?_, ?_⟩
    · unfold negotiationStatus
      rw [hfneg]
      rfl
    · have hfmr : findMatchRow (acceptNegotiation id userId now txid db).2
          n.matchId = some (contractStamp now m) := by
        rw [hstep]
        rw [findMatchRow_update _ n.matchId (contractStamp now)
          (fun mr => rfl)]
        show (findMatchRow db n.matchId).map _ = _
        rw [hm]
        rfl
      unfold matchStatus
      rw [hfmr]
      rfl

/-- C4 witness: accepting the ACTIVE fixture negotiation (no prior
transaction) creates the transaction with `totalValue = 90 * 5 = 450`, sets
it ACCEPTED and the match CONTRACT_SIGNED — by `accept_negotiation_spec` at
concrete inputs. -/
theorem accept_negotiation_spec_witness :
    (acceptNegotiation "n1" "u2" 9 "t1" (fxDb .ACTIVE)).2.transactions
        = (fxDb .ACTIVE).transactions
          ++ [newTransactionRow "n1" "t1" (fxNeg .ACTIVE) fxMatch]
      ∧ (newTransactionRow "n1" "t1" (fxNeg .ACTIVE) fxMatch).totalValue
          = (fxNeg .ACTIVE).currentPrice * (fxNeg .ACTIVE).quantity
      ∧ negotiationStatus (acceptNegotiation "n1" "u2" 9 "t1"
          (fxDb .ACTIVE)).2 "n1" = some .ACCEPTED
      ∧ matchStatus (acceptNegotiation "n1" "u2" 9 "t1" (fxDb .ACTIVE)).2
          "m1" = some .CONTRACT_SIGNED :=
  let h := (accept_negotiation_spec (fxDb .ACTIVE) "n1" "u2" 9 "t1").2.2.2
    (fxNeg .ACTIVE) fxMatch (by decide) (by decide) (by decide) (by decide)
  ⟨h.2.1, h.2.2.1, h.2.2.2.2.1, h.2.2.2.2.2⟩

/-! ## C8 — respond to offer -/

/-- C8: respond fails not-found when the offer is absent and invalid-state
when it is not PENDING; an ACCEPTED response marks the parent negotiation
ACCEPTED with `acceptedAt` stamped — for every database state, hence in
particular when other offers of the negotiation are still PENDING. -/
theorem respond_offer_spec (db : Db) (oid : String) (dto : RespondOfferDto)
    (userId : String) (now : ℚ) :
    (findOffer db oid = none →
        respondToOffer oid dto userId now db
          = (.error (.notFound "Offer not found"), db))
  ∧ (∀ o, findOffer db oid = some o → o.status ≠ .PENDING →
        respondToOffer oid dto userId now db
          = (.error (.badRequest "Offer has already been responded to"), db))
  ∧ (∀ o p, findOffer db oid = some o → o.status = .PENDING →
      dto.status = .ACCEPTED →
      findNegotiation db o.negotiationId = some p →
        (respondToOffer oid dto userId now db).1
            = .ok (respondedStamp dto now o)
        ∧ findNegotiation (respondToOffer oid dto userId now db).2
              o.negotiationId = some (acceptedStamp now userId p)
        ∧ negotiationStatus (respondToOffer oid dto userId now db).2
              o.negotiationId = some .ACCEPTED
        ∧ ((findNegotiation (respondToOffer oid dto userId now db).2
              o.negotiationId).map fun nn => nn.acceptedAt)
            = some (some now)) := by
  refine ⟨?_, ?_, ?_⟩
  · intro hnone
    unfold respondToOffer
    rw [hnone]
  · intro o ho hnp
    unfold respondToOffer
    rw [ho]
    dsimp only
    rw [if_pos hnp]
  · intro o p ho hp hacc hfneg
    obtain ⟨hstep, hfind⟩ := respond_accept_post db oid dto userId now o p
      ho hp hacc hfneg
    refine ⟨by rw [hstep], hfind, ?_, ?_⟩
    · unfold negotiationStatus
      rw [hfind]
      rfl
    · rw [hfind]
      rfl

/-- C8 witness: in a state with two PENDING offers on the ACTIVE fixture
negotiation, accepting offer "o1" marks the negotiation ACCEPTED while
offer "o2" is still PENDING afterwards — by `respond_offer_spec` at
concrete inputs. -/
theorem respond_offer_spec_witness :
    ((respondToOffer "o1" fxRespondDto "u9" 7 fxDbOffers).1
          = .ok (respondedStamp fxRespondDto 7 (fxOffer .PENDING "o1"))
        ∧ negotiationStatus (respondToOffer "o1" fxRespondDto "u9" 7
            fxDbOffers).2 "n1" = some .ACCEPTED)
      ∧ ((findOffer (respondToOffer "o1" fxRespondDto "u9" 7 fxDbOffers).2
            "o2").map fun o => o.status) = some .PENDING :=
  let h := (respond_offer_spec fxDbOffers "o1" fxRespondDto "u9" 7).2.2
    (fxOffer .PENDING "o1") (fxNeg .ACTIVE) (by decide) (by decide)
    (by decide) (by decide)
  ⟨⟨h.1, h.2.2.1⟩, by decide⟩

/-! ## C2 — terminal statuses -/

/-- C2 (amended): a non-ACTIVE negotiation is terminal for
accept-negotiation and create-offer, which fail with the invalid-state
error and leave the state untouched; in particular, accepting the same
negotiation twice in sequence fails on the second call.  However,
reject-negotiation overwrites *any* status with REJECTED, and responding
ACCEPTED to a still-PENDING offer sets the parent negotiation to ACCEPTED
whatever its status — so the claim's "no operation" does not hold for
those two operations. -/
theorem negotiation_terminal_spec (db : Db) (id userId : String) (now : ℚ)
    (txid newId : String) (dto : CreateOfferDto) :
    (∀ n, findNegotiation db id = some n → n.status ≠ .ACTIVE →
        acceptNegotiation id userId now txid db
          = (.error (.badRequest "Negotiation is not active"), db))
  ∧ (∀ n, findNegotiation db dto.negotiationId = some n →
        n.status ≠ .ACTIVE →
        createOffer dto newId db
          = (.error (.badRequest "Negotiation is not active"), db))
  ∧ (∀ db2 r u2 now2 tx2,
        acceptNegotiation id userId now txid db = (.ok r, db2) →
        (acceptNegotiation id u2 now2 tx2 db2).1
          = .error (.badRequest "Negotiation is not active"))
  ∧ (∀ n, findNegotiation db id = some n →
        negotiationStatus (rejectNegotiation id userId now db).2 id
          = some .REJECTED)
  ∧ (∀ oid o rdto p, findOffer db oid = some o → o.status = .PENDING →
        rdto.status = .ACCEPTED →
        findNegotiation db o.negotiationId = some p →
        negotiationStatus (respondToOffer oid rdto userId now db).2
            o.negotiationId = some .ACCEPTED) := by
  refine ⟨?_, ?_, ?_, ?_, ?_⟩
  · intro n hn hna
    unfold acceptNegotiation
    rw [hn]
    dsimp only
    rw [if_pos hna]
  · intro n hn hna
    unfold createOffer
    rw [hn]
    dsimp only
    rw [if_pos hna]
  · intro db2 r u2 now2 tx2 hacc
    cases hn : findNegotiation db id with
    | none =>
      unfold acceptNegotiation at hacc
      rw [hn] at hacc
      simp at hacc
    | some n =>
      by_cases ha : n.status = .ACTIVE
      · have hfneg : findNegotiation db2 id
            = some (acceptedStamp now userId n) := by
          cases hft : findTransaction db id with
          | some t =>
            have hstep := accept_ok_tx_some db id userId now txid n t hn ha
              hft
            rw [hstep] at hacc
            rw [Prod.mk.injEq] at hacc
            rw [← hacc.2]
            exact find_after_accept db db id userId now n rfl hn n.matchId
          | none =>
            cases hfm : findMatchRow db n.matchId with
            | none =>
              unfold acceptNegotiation at hacc
              rw [hn] at hacc
              dsimp only at hacc
              rw [if_neg (not_not_intro ha), hft, hfm] at hacc
              simp at hacc
            | some m =>
              have hstep := accept_ok_tx_none db id userId now txid n m hn
                ha hft hfm
              rw [hstep] at hacc
              rw [Prod.mk.injEq] at hacc
              rw [← hacc.2]
              exact find_after_accept _ db id userId now n rfl hn n.matchId
        unfold acceptNegotiation
        rw [hfneg]
        dsimp only
        have hne : (acceptedStamp now userId n).status ≠ .ACTIVE := by
          show NegotiationStatus.ACCEPTED ≠ .ACTIVE
          decide
        rw [if_pos hne]
      · unfold acceptNegotiation at hacc
        rw [hn] at hacc
        dsimp only at hacc
        rw [if_pos ha] at hacc
        simp at hacc
  · intro n hn
    unfold rejectNegotiation
    rw [hn]
    dsimp only
    unfold negotiationStatus
    rw [findNegotiation_update db id (rejectedStamp now userId)
      (fun nn => rfl), hn]
    rfl
  · intro oid o rdto p ho hp hacc hfneg
    have hfind := (respond_accept_post db oid rdto userId now o p ho hp hacc
      hfneg).2
    unfold negotiationStatus
    rw [hfind]
    rfl

/-- C2 witness: on an already-ACCEPTED negotiation, accept and create-offer
fail with the invalid-state error and change nothing — by
`negotiation_terminal_spec` at concrete inputs. -/
theorem negotiation_terminal_spec_witness :
    acceptNegotiation "n1" "u2" 9 "t1" (fxDb .ACCEPTED)
        = (.error (.badRequest "Negotiation is not active"), fxDb .ACCEPTED)
      ∧ createOffer fxOfferDto "o9" (fxDb .ACCEPTED)
        = (.error (.badRequest "Negotiation is not active"),
            fxDb .ACCEPTED) :=
  let h := negotiation_terminal_spec (fxDb .ACCEPTED) "n1" "u2" 9 "t1" "o9"
    fxOfferDto
  ⟨h.1 (fxNeg .ACCEPTED) (by decide) (by decide),
    h.2.1 (fxNeg .ACCEPTED) (by decide) (by decide)⟩

/-- C2 counterexample: reject-negotiation *is* an operation that changes a
non-ACTIVE negotiation's status — on an ACCEPTED negotiation it succeeds
and overwrites the status with REJECTED (the code never checks the status
before rejecting). -/
theorem reject_overwrites_cex :
    negotiationStatus (fxDb .ACCEPTED) "n1" = some .ACCEPTED
      ∧ NegotiationStatus.ACCEPTED ≠ .ACTIVE
      ∧ negotiationStatus
          (rejectNegotiation "n1" "u2" 7 (fxDb .ACCEPTED)).2 "n1"
          = some .REJECTED
      ∧ NegotiationStatus.REJECTED ≠ .ACCEPTED := by
  refine ⟨by decide, by decide, by decide, by decide⟩

end TradeLink
